import Mathlib

/-!
Shallow embedding of the cost-optimization lambda handlers:
`s3_expiration_alerter.py` (ExpirationScanner), `stop_instances.py`
(InstanceReaper), and the spec-described GroupScaleDown handler.

Python strings are modelled as `List Char`; timestamps as `Int` seconds
(UTC), so `timedelta(days = d)` is `d * 86400` seconds and Python's
`timedelta.days` is floor division (`Int.fdiv`) by 86400. Collaborator
calls (SNS publish, EC2 stop, ASG capacity update) and the error-path
`print` are recorded as a trace of `ProviderCall` events; fallible
collaborators are passed in as `Except` outcomes.
-/

namespace CostOpt

/-- Python strings, modelled as lists of characters. -/
abbrev Str := List Char

/-- One object from the S3 listing: the fields the handler reads
(`obj['Key']`, `obj['LastModified']`).  `LastModified` is a UTC
timestamp in seconds. -/
structure StoredObject where
  Key : Str
  LastModified : Int
deriving DecidableEq

/-- The expiration scanner's environment configuration
(module-level `os.environ` reads in `s3_expiration_alerter.py`). -/
structure ScannerEnv where
  S3_BUCKET_NAME : Str
  SNS_TOPIC_ARN : Str
  ALERT_DAYS_BEFORE_EXPIRATION : Int
  LIFECYCLE_EXPIRATION_DAYS : Int
deriving DecidableEq

/-- One entry of the `notifications` list built by the scanner. -/
structure ExpirationNotice where
  object_key : Str
  message : Str
deriving DecidableEq

/-- The `{'statusCode': ..., 'body': ...}` dict a handler returns. -/
structure HandlerResult where
  statusCode : Nat
  body : Str
deriving DecidableEq

/-- Externally visible effects of a run: collaborator calls and the
error-path log line. -/
inductive ProviderCall where
  | publish (topicArn : Str) (message : Str) (subject : Str)
  | stopInstances (instanceIds : List Str)
  | setGroupCapacity (groupName : Str) (minSize : Int) (desiredCapacity : Int)
  | log (line : Str)
deriving DecidableEq

/-- Whether an event is an SNS publish call. -/
def ProviderCall.isPublish : ProviderCall → Bool
  | ProviderCall.publish _ _ _ => true
  | _ => false

/-- Whether an event is an ASG capacity-update call. -/
def ProviderCall.isSetGroupCapacity : ProviderCall → Bool
  | ProviderCall.setGroupCapacity _ _ _ => true
  | _ => false

/-- Seconds in one day: `timedelta(days = 1)`. -/
def secondsPerDay : Int := 86400

/-- `timedelta(days = d)` as seconds. -/
def timedeltaDays (d : Int) : Int := d * secondsPerDay

/-- `potential_expiration_date = last_modified + timedelta(days=LIFECYCLE_EXPIRATION_DAYS)`. -/
def potential_expiration_date (env : ScannerEnv) (o : StoredObject) : Int :=
  o.LastModified + timedeltaDays env.LIFECYCLE_EXPIRATION_DAYS

/-- `alert_start_date = potential_expiration_date - timedelta(days=ALERT_DAYS_BEFORE_EXPIRATION)`. -/
def alert_start_date (env : ScannerEnv) (o : StoredObject) : Int :=
  potential_expiration_date env o - timedeltaDays env.ALERT_DAYS_BEFORE_EXPIRATION

/-- The guard `alert_start_date <= today < potential_expiration_date`. -/
def inAlertWindow (env : ScannerEnv) (today : Int) (o : StoredObject) : Bool :=
  decide (alert_start_date env o ≤ today) && decide (today < potential_expiration_date env o)

/-- `days_to_expire = (potential_expiration_date - today).days`: Python's
`timedelta.days` floors, hence `Int.fdiv`. -/
def days_to_expire (env : ScannerEnv) (today : Int) (o : StoredObject) : Int :=
  Int.fdiv (potential_expiration_date env o - today) secondsPerDay

/-- The format string of the first `strftime` call. -/
def fmtFull : Str := ("%Y-%m-%d %H:%M:%S %Z").data

/-- The format string of the second `strftime` call. -/
def fmtDate : Str := ("%Y-%m-%d").data

/-- The `message_body` f-string built for a flagged object; `strftime`
abstracts the datetime-formatting library call (format string, timestamp). -/
def message_body (strftime : Str → Int → Str) (env : ScannerEnv) (today : Int)
    (o : StoredObject) : Str :=
  ("S3 Object Alert:\n").data ++
  ("Bucket: ").data ++ env.S3_BUCKET_NAME ++ ("\n").data ++
  ("Object Key: ").data ++ o.Key ++ ("\n").data ++
  ("Last Modified: ").data ++ strftime fmtFull o.LastModified ++ ("\n").data ++
  ("Scheduled for deletion in approximately: ").data ++
  (toString (days_to_expire env today o)).data ++
  (" day(s) (around ").data ++ strftime fmtDate (potential_expiration_date env o) ++
  (").").data

/-- The notification entry appended for a flagged object. -/
def noticeFor (strftime : Str → Int → Str) (env : ScannerEnv) (today : Int)
    (o : StoredObject) : ExpirationNotice :=
  { object_key := o.Key, message := message_body strftime env today o }

/-- The inner loop over one listing page: a page with no `Contents` key is
skipped (`continue`), otherwise each object in the alert window yields a
notification entry, in listing order. -/
def scanPage (strftime : Str → Int → Str) (env : ScannerEnv) (today : Int)
    (page : Option (List StoredObject)) : List ExpirationNotice :=
  match page with
  | none => []
  | some objs => objs.filterMap fun o =>
      if inAlertWindow env today o then some (noticeFor strftime env today o) else none

/-- The full pagination loop: notifications accumulated over all pages. -/
def collectNotifications (strftime : Str → Int → Str) (env : ScannerEnv) (today : Int)
    (pages : List (Option (List StoredObject))) : List ExpirationNotice :=
  (pages.map (scanPage strftime env today)).flatten

/-- Python's `sep.join(parts)`. -/
def pyJoin (sep : Str) : List Str → Str
  | [] => []
  | [s] => s
  | s :: rest => s ++ sep ++ pyJoin sep rest

/-- The SNS `Subject` f-string. -/
def subjectLine (env : ScannerEnv) (count : Nat) : Str :=
  ("[").data ++ (toString count).data ++
  ("] S3 Object(s) Nearing Expiration in Bucket: ").data ++ env.S3_BUCKET_NAME

/-- The consolidated SNS `Message`: header plus the joined per-object bodies. -/
def consolidated_message (env : ScannerEnv) (notices : List ExpirationNotice) : Str :=
  ("The following S3 object(s) in bucket '").data ++ env.S3_BUCKET_NAME ++
  ("' are nearing their ").data ++ (toString env.LIFECYCLE_EXPIRATION_DAYS).data ++
  ("-day lifecycle expiration:\n\n").data ++
  pyJoin (("\n\n---\n\n").data) (notices.map ExpirationNotice.message)

/-- The `except`-branch log line. -/
def errorLogLine (e : Str) : Str :=
  ("Error processing S3 expiration alerts: ").data ++ e

/-- The success-path return body f-string. -/
def returnBody (count : Nat) : Str :=
  ("Processed. Found ").data ++ (toString count).data ++
  (" object(s) nearing expiration.").data

/-- `lambda_handler` of `s3_expiration_alerter.py`.  `listing` is the outcome
of consuming the paginated `list_objects_v2` (each page optionally carrying a
`Contents` list); `publishOutcome` is the outcome the SNS publish call would
have if reached.  A raised exception is logged and re-raised (`Except.error`);
the trace records the publish attempt and the error-path log line. -/
def s3_lambda_handler (strftime : Str → Int → Str) (env : ScannerEnv) (today : Int)
    (listing : Except Str (List (Option (List StoredObject))))
    (publishOutcome : Except Str Unit) :
    Except Str HandlerResult × List ProviderCall :=
  match listing with
  | Except.error e => (Except.error e, [ProviderCall.log (errorLogLine e)])
  | Except.ok pages =>
      let notifications := collectNotifications strftime env today pages
      if notifications.isEmpty then
        (Except.ok { statusCode := 200, body := returnBody notifications.length }, [])
      else
        let pub := ProviderCall.publish env.SNS_TOPIC_ARN
          (consolidated_message env notifications)
          (subjectLine env notifications.length)
        match publishOutcome with
        | Except.error e => (Except.error e, [pub, ProviderCall.log (errorLogLine e)])
        | Except.ok _ =>
            (Except.ok { statusCode := 200, body := returnBody notifications.length }, [pub])

/-- One instance record of a `describe_instances` reservation: the handler
reads only `instance['InstanceId']`. -/
structure Ec2Instance where
  InstanceId : Str
deriving DecidableEq

/-- One reservation of the `describe_instances` response. -/
structure Reservation where
  Instances : List Ec2Instance
deriving DecidableEq

/-- The nested loop flattening `response['Reservations']` into
`running_instance_ids`, in provider order. -/
def runningInstanceIds (reservations : List Reservation) : List Str :=
  (reservations.map fun r => r.Instances.map Ec2Instance.InstanceId).flatten

/-- `lambda_handler` of `stop_instances.py`: `reservations` is the (already
tag- and running-state-filtered) `describe_instances` response.  The stop
call is issued unconditionally on `running_instance_ids[1:]`. -/
def stop_lambda_handler (reservations : List Reservation) :
    HandlerResult × List ProviderCall :=
  let running_instance_ids := runningInstanceIds reservations
  let instances_to_stop := running_instance_ids.drop 1
  let success_message := ("Successfully sent stop command for instances: ").data ++
    pyJoin ((", ").data) instances_to_stop
  ({ statusCode := 200, body := success_message },
   [ProviderCall.stopInstances instances_to_stop])

/-- Modelled from the spec: the GroupScaleDown handler's source file is not
under src/ (only the scanner and the instance reaper are).  Per the spec it
unconditionally issues a single capacity update with minimum size 0 and
desired capacity 0 for the named autoscaling group — no read-before-write —
and any failure is logged and re-raised to the invoker; on success it returns
a structured 200 result with a summary body. -/
def groupScaleDown_handler (groupName : Str) (updateOutcome : Except Str Unit) :
    Except Str HandlerResult × List ProviderCall :=
  let call := ProviderCall.setGroupCapacity groupName 0 0
  match updateOutcome with
  | Except.error e => (Except.error e, [call, ProviderCall.log e])
  | Except.ok _ =>
      (Except.ok { statusCode := 200,
                   body := ("Scaled down group ").data ++ groupName }, [call])

/-- All objects of the listing with its pages flattened; a page without a
`Contents` key contributes nothing. -/
def objectsOf (pages : List (Option (List StoredObject))) : List StoredObject :=
  (pages.map fun p => p.getD []).flatten

/-- A trivial stand-in for the datetime-formatting collaborator, used for
concrete evaluations. -/
def fmtNil : Str → Int → Str := fun _ _ => []

/-- A concrete scanner configuration with the default lead and retention
windows (7 and 365 days). -/
def envEx : ScannerEnv :=
  { S3_BUCKET_NAME := ("bkt").data
    SNS_TOPIC_ARN := ("topic").data
    ALERT_DAYS_BEFORE_EXPIRATION := 7
    LIFECYCLE_EXPIRATION_DAYS := 365 }

/-- The spec example object: last modified at the epoch. -/
def objEx : StoredObject := { Key := ("a.txt").data, LastModified := 0 }

/-- The spec example instant: 360 days after `objEx` was last modified. -/
def todayEx : Int := 360 * 86400

/-- A one-page listing holding only `objEx`. -/
def pagesEx : List (Option (List StoredObject)) := [some [objEx]]

/-- A `describe_instances` response with one running instance. -/
def resvOne : List Reservation :=
  [{ Instances := [{ InstanceId := ("i-1").data }] }]

/-- The spec example response: three running instances i-1, i-2, i-3. -/
def resvThree : List Reservation :=
  [{ Instances := [{ InstanceId := ("i-1").data }, { InstanceId := ("i-2").data },
                   { InstanceId := ("i-3").data }] }]

/- ------------------------------------------------------------------ -/
/- Helper lemmas shared by the claim theorems.                         -/
/- ------------------------------------------------------------------ -/

/-- The pagination loop equals one filterMap over the flattened listing. -/
theorem collectNotifications_eq (strftime : Str → Int → Str) (env : ScannerEnv)
    (today : Int) (pages : List (Option (List StoredObject))) :
    collectNotifications strftime env today pages
      = (objectsOf pages).filterMap fun o =>
          if inAlertWindow env today o then some (noticeFor strftime env today o)
          else none := by
  induction pages with
  | nil => rfl
  | cons p rest ih =>
      cases p with
      | none =>
          simpa [collectNotifications, objectsOf, scanPage] using ih
      | some objs =>
          simp only [collectNotifications, objectsOf, List.map_cons, List.flatten_cons,
            List.filterMap_append, scanPage, Option.getD_some] at ih ⊢
          rw [ih]

/-- The keys of the produced notices are the keys of the flagged objects. -/
theorem map_key_filterMap (strftime : Str → Int → Str) (env : ScannerEnv)
    (today : Int) (objs : List StoredObject) :
    ((objs.filterMap fun o =>
        if inAlertWindow env today o then some (noticeFor strftime env today o)
        else none).map ExpirationNotice.object_key)
      = (objs.filter fun o => inAlertWindow env today o).map StoredObject.Key := by
  induction objs with
  | nil => rfl
  | cons o rest ih =>
      by_cases h : inAlertWindow env today o = true <;>
        simpa [h, noticeFor] using ih

/-- As many notices are produced as objects are flagged. -/
theorem length_notifications (strftime : Str → Int → Str) (env : ScannerEnv)
    (today : Int) (pages : List (Option (List StoredObject))) :
    (collectNotifications strftime env today pages).length
      = ((objectsOf pages).filter fun o => inAlertWindow env today o).length := by
  have h := congrArg List.length
    (map_key_filterMap strftime env today (objectsOf pages))
  simpa [collectNotifications_eq, List.length_map] using h

/-- A flagged object of the listing yields its notice in the accumulated list. -/
theorem notice_mem_of_flagged (strftime : Str → Int → Str) (env : ScannerEnv)
    (today : Int) (pages : List (Option (List StoredObject))) (o : StoredObject)
    (ho : o ∈ objectsOf pages) (hf : inAlertWindow env today o = true) :
    noticeFor strftime env today o ∈ collectNotifications strftime env today pages := by
  rw [collectNotifications_eq]
  exact List.mem_filterMap.mpr ⟨o, ho, by simp [hf]⟩

/-- An infix of a list is an infix of any left-extension of it. -/
theorem infix_append_left (l l₁ l₂ : Str) (h : l₁ <:+: l₂) : l₁ <:+: l ++ l₂ := by
  obtain ⟨s, t, rfl⟩ := h
  exact ⟨l ++ s, t, by simp⟩

/-- A member of the joined parts is an infix of the Python join. -/
theorem infix_pyJoin (sep s : Str) (l : List Str) (h : s ∈ l) :
    s <:+: pyJoin sep l := by
  induction l with
  | nil => cases h
  | cons t rest ih =>
      cases rest with
      | nil =>
          rw [List.mem_singleton] at h
          subst h
          exact List.infix_rfl
      | cons u more =>
          rcases List.mem_cons.mp h with h1 | h2
          · subst h1
            exact ⟨[], sep ++ pyJoin sep (u :: more), by simp [pyJoin]⟩
          · exact (ih h2).trans ⟨t ++ sep, [], by simp [pyJoin]⟩

/-- The object key stands inside its own message body. -/
theorem key_infix_message (strftime : Str → Int → Str) (env : ScannerEnv)
    (today : Int) (o : StoredObject) :
    o.Key <:+: message_body strftime env today o := by
  refine ⟨("S3 Object Alert:\n").data ++ ("Bucket: ").data ++ env.S3_BUCKET_NAME ++
    ("\n").data ++ ("Object Key: ").data,
    ("\n").data ++ ("Last Modified: ").data ++ strftime fmtFull o.LastModified ++
    ("\n").data ++ ("Scheduled for deletion in approximately: ").data ++
    (toString (days_to_expire env today o)).data ++
    (" day(s) (around ").data ++ strftime fmtDate (potential_expiration_date env o) ++
    (").").data, ?_⟩
  simp [message_body, List.append_assoc]

/-- The remaining-days figure stands inside the message body. -/
theorem days_infix_message (strftime : Str → Int → Str) (env : ScannerEnv)
    (today : Int) (o : StoredObject) :
    (toString (days_to_expire env today o)).data <:+: message_body strftime env today o := by
  refine ⟨("S3 Object Alert:\n").data ++ ("Bucket: ").data ++ env.S3_BUCKET_NAME ++
    ("\n").data ++ ("Object Key: ").data ++ o.Key ++
    ("\n").data ++ ("Last Modified: ").data ++ strftime fmtFull o.LastModified ++
    ("\n").data ++ ("Scheduled for deletion in approximately: ").data,
    (" day(s) (around ").data ++ strftime fmtDate (potential_expiration_date env o) ++
    (").").data, ?_⟩
  simp [message_body, List.append_assoc]

/-- The flagged count stands inside the subject line. -/
theorem count_infix_subject (env : ScannerEnv) (count : Nat) :
    (toString count).data <:+: subjectLine env count := by
  refine ⟨("[").data,
    ("] S3 Object(s) Nearing Expiration in Bucket: ").data ++ env.S3_BUCKET_NAME, ?_⟩
  simp [subjectLine, List.append_assoc]

/-- Each accumulated notice message stands inside the consolidated message. -/
theorem message_infix_consolidated (env : ScannerEnv)
    (notices : List ExpirationNotice) (n : ExpirationNotice) (h : n ∈ notices) :
    n.message <:+: consolidated_message env notices := by
  have h1 : n.message ∈ notices.map ExpirationNotice.message :=
    List.mem_map_of_mem _ h
  have h2 := infix_pyJoin (("\n\n---\n\n").data) n.message _ h1
  simp only [consolidated_message]
  exact infix_append_left _ _ _ h2

/- ------------------------------------------------------------------ -/
/- Claim theorems.                                                     -/
/- ------------------------------------------------------------------ -/

/-- C1: the scanner flags an object iff alertStart ≤ now < projectedExpiration,
where projectedExpiration = lastModified + retentionWindowDays and alertStart =
projectedExpiration − alertLeadDays (all in seconds); the keys of the produced
notices are exactly the keys of the objects satisfying that half-open interval;
the boundary with lastModified = now − (retention − alertLead) days is flagged,
and the boundary with lastModified = now − retention days (expiration instant)
is not. -/
theorem c1_alert_window_flagging (strftime : Str → Int → Str) (env : ScannerEnv)
    (today : Int) (pages : List (Option (List StoredObject))) (o : StoredObject)
    (hlead : 0 < env.ALERT_DAYS_BEFORE_EXPIRATION) :
    ((collectNotifications strftime env today pages).map ExpirationNotice.object_key
        = ((objectsOf pages).filter fun x => inAlertWindow env today x).map
            StoredObject.Key)
    ∧ (inAlertWindow env today o = true ↔
        o.LastModified + env.LIFECYCLE_EXPIRATION_DAYS * 86400
            - env.ALERT_DAYS_BEFORE_EXPIRATION * 86400 ≤ today
          ∧ today < o.LastModified + env.LIFECYCLE_EXPIRATION_DAYS * 86400)
    ∧ (o.LastModified
          = today - (env.LIFECYCLE_EXPIRATION_DAYS
              - env.ALERT_DAYS_BEFORE_EXPIRATION) * 86400 →
        inAlertWindow env today o = true)
    ∧ (o.LastModified = today - env.LIFECYCLE_EXPIRATION_DAYS * 86400 →
        inAlertWindow env today o = false) := by
  have hiff : inAlertWindow env today o = true ↔
      o.LastModified + env.LIFECYCLE_EXPIRATION_DAYS * 86400
          - env.ALERT_DAYS_BEFORE_EXPIRATION * 86400 ≤ today
        ∧ today < o.LastModified + env.LIFECYCLE_EXPIRATION_DAYS * 86400 := by
    simp only [inAlertWindow, alert_start_date, potential_expiration_date,
      timedeltaDays, secondsPerDay, Bool.and_eq_true, decide_eq_true_eq]
  refine ⟨?_, hiff, ?_, ?_⟩
  · rw [collectNotifications_eq]
    exact map_key_filterMap strftime env today (objectsOf pages)
  · intro h
    rw [hiff]
    rw [h]
    constructor <;> nlinarith [hlead]
  · intro h
    rw [Bool.eq_false_iff]
    intro hc
    have := (hiff.mp hc).2
    rw [h] at this
    omega

/-- Witness for C1 at the spec example configuration. -/
theorem c1_alert_window_flagging_witness :
    (0 : Int) < envEx.ALERT_DAYS_BEFORE_EXPIRATION
    ∧ inAlertWindow envEx todayEx objEx = true := by
  refine ⟨by decide, ?_⟩
  exact (c1_alert_window_flagging fmtNil envEx todayEx pagesEx objEx
    (by decide)).2.1.mpr (by decide)

/-- C2 counterexample: with exactly one matching running instance (N = 1 ≤ 1),
the stop-instances collaborator call still occurs in the run, so the claim that
no stop call is made is false on the code. -/
theorem c2_counterexample :
    (runningInstanceIds resvOne).length ≤ 1
    ∧ ProviderCall.stopInstances [] ∈ (stop_lambda_handler resvOne).2 := by
  decide

/-- C2 (amended): when zero or one matching running instance is found, the stop
request targets no instances — the stop call is still issued, but with an empty
target list. -/
theorem c2_empty_stop_targets (reservations : List Reservation)
    (h : (runningInstanceIds reservations).length ≤ 1) :
    (stop_lambda_handler reservations).2 = [ProviderCall.stopInstances []] := by
  have hd : (runningInstanceIds reservations).drop 1 = [] :=
    List.drop_eq_nil_iff.mpr h
  simp [stop_lambda_handler, hd]

/-- Witness for the amended C2 at the empty response. -/
theorem c2_empty_stop_targets_witness :
    (runningInstanceIds []).length ≤ 1
    ∧ (stop_lambda_handler []).2 = [ProviderCall.stopInstances []] :=
  ⟨by decide, c2_empty_stop_targets [] (by decide)⟩

/-- C3: the reaper's stop targets are exactly the provider's flattened instance
sequence with its first element removed — max(N−1, 0) instances — and on the
example [i-1, i-2, i-3] the targets are [i-2, i-3]. -/
theorem c3_stop_targets (reservations : List Reservation) :
    (stop_lambda_handler reservations).2
      = [ProviderCall.stopInstances ((runningInstanceIds reservations).drop 1)]
    ∧ ((runningInstanceIds reservations).drop 1).length
        = (runningInstanceIds reservations).length - 1
    ∧ (stop_lambda_handler resvThree).2
        = [ProviderCall.stopInstances [("i-2").data, ("i-3").data]] := by
  refine ⟨rfl, ?_, by decide⟩
  simp [List.length_drop]

/-- C4: on a run whose listing succeeds, if no object is flagged no publish
call occurs; if some object is flagged, exactly one publish call occurs,
its subject holds the flagged count and its message holds every flagged
object's key. -/
theorem c4_publish_semantics (strftime : Str → Int → Str) (env : ScannerEnv)
    (today : Int) (pages : List (Option (List StoredObject)))
    (publishOutcome : Except Str Unit) :
    (collectNotifications strftime env today pages = [] →
      (s3_lambda_handler strftime env today (Except.ok pages) publishOutcome).2.filter
        ProviderCall.isPublish = [])
    ∧ (collectNotifications strftime env today pages ≠ [] →
      ((s3_lambda_handler strftime env today (Except.ok pages) publishOutcome).2.filter
          ProviderCall.isPublish
        = [ProviderCall.publish env.SNS_TOPIC_ARN
            (consolidated_message env (collectNotifications strftime env today pages))
            (subjectLine env (collectNotifications strftime env today pages).length)]
      ∧ (toString (collectNotifications strftime env today pages).length).data
          <:+: subjectLine env (collectNotifications strftime env today pages).length
      ∧ ∀ o ∈ objectsOf pages, inAlertWindow env today o = true →
          o.Key <:+: consolidated_message env
            (collectNotifications strftime env today pages))) := by
  constructor
  · intro h
    simp [s3_lambda_handler, List.isEmpty_iff, h]
  · intro h
    have hE : (collectNotifications strftime env today pages).isEmpty = false := by
      simp [List.isEmpty_iff, h]
    refine ⟨?_, count_infix_subject env _, ?_⟩
    · cases publishOutcome <;>
        simp [s3_lambda_handler, hE, ProviderCall.isPublish]
    · intro o ho hf
      have hm := notice_mem_of_flagged strftime env today pages o ho hf
      have h2 := message_infix_consolidated env
        (collectNotifications strftime env today pages) _ hm
      exact (key_infix_message strftime env today o).trans
        (by simpa [noticeFor] using h2)

/-- Witness for C4 at the spec example listing, on which one object is
flagged. -/
theorem c4_publish_semantics_witness :
    collectNotifications fmtNil envEx todayEx pagesEx ≠ []
    ∧ (s3_lambda_handler fmtNil envEx todayEx (Except.ok pagesEx)
        (Except.ok ())).2.filter ProviderCall.isPublish
      = [ProviderCall.publish envEx.SNS_TOPIC_ARN
          (consolidated_message envEx (collectNotifications fmtNil envEx todayEx pagesEx))
          (subjectLine envEx (collectNotifications fmtNil envEx todayEx pagesEx).length)] :=
  ⟨by decide,
   ((c4_publish_semantics fmtNil envEx todayEx pagesEx (Except.ok ())).2 (by decide)).1⟩

/-- C5: a listing failure is propagated unchanged to the invoker, logged, and
its whole trace is that one log line (in particular no publish call occurs); a
publish failure on a flagged run is propagated unchanged and logged, with
exactly the one attempted publish call in the trace. -/
theorem c5_error_propagation (strftime : Str → Int → Str) (env : ScannerEnv)
    (today : Int) (pages : List (Option (List StoredObject)))
    (publishOutcome : Except Str Unit) (e : Str) :
    ((s3_lambda_handler strftime env today (Except.error e) publishOutcome).1
        = Except.error e
      ∧ (s3_lambda_handler strftime env today (Except.error e) publishOutcome).2
        = [ProviderCall.log (errorLogLine e)])
    ∧ (collectNotifications strftime env today pages ≠ [] →
        (s3_lambda_handler strftime env today (Except.ok pages) (Except.error e)).1
          = Except.error e
        ∧ (s3_lambda_handler strftime env today (Except.ok pages) (Except.error e)).2
          = [ProviderCall.publish env.SNS_TOPIC_ARN
              (consolidated_message env (collectNotifications strftime env today pages))
              (subjectLine env (collectNotifications strftime env today pages).length),
             ProviderCall.log (errorLogLine e)]) := by
  refine ⟨⟨rfl, rfl⟩, ?_⟩
  intro h
  have hE : (collectNotifications strftime env today pages).isEmpty = false := by
    simp [List.isEmpty_iff, h]
  constructor <;> simp [s3_lambda_handler, hE]

/-- Witness for C5 at the spec example listing and a concrete error. -/
theorem c5_error_propagation_witness :
    collectNotifications fmtNil envEx todayEx pagesEx ≠ []
    ∧ (s3_lambda_handler fmtNil envEx todayEx (Except.ok pagesEx)
        (Except.error (("boom").data))).1 = Except.error (("boom").data) := by
  refine ⟨by decide, ?_⟩
  exact ((c5_error_propagation fmtNil envEx todayEx pagesEx
    (Except.ok ()) (("boom").data)).2 (by decide)).1

/-- C6: for every invocation of the (spec-modelled) GroupScaleDown handler,
exactly one capacity-update call is made, with minimum size 0 and desired
capacity 0, unconditionally; a failing update is propagated unchanged to the
invoker and logged. -/
theorem c6_scale_down_single_update (groupName : Str)
    (updateOutcome : Except Str Unit) :
    (groupScaleDown_handler groupName updateOutcome).2.filter
        ProviderCall.isSetGroupCapacity
      = [ProviderCall.setGroupCapacity groupName 0 0]
    ∧ (∀ e, updateOutcome = Except.error e →
        (groupScaleDown_handler groupName updateOutcome).1 = Except.error e
        ∧ ProviderCall.log e ∈ (groupScaleDown_handler groupName updateOutcome).2) := by
  cases updateOutcome <;>
    simp [groupScaleDown_handler, ProviderCall.isSetGroupCapacity]

/-- Witness for C6 at a concrete group name and a failing update. -/
theorem c6_scale_down_single_update_witness :
    (groupScaleDown_handler (("asg").data)
        (Except.error (("denied").data))).2.filter ProviderCall.isSetGroupCapacity
      = [ProviderCall.setGroupCapacity (("asg").data) 0 0]
    ∧ (groupScaleDown_handler (("asg").data)
        (Except.error (("denied").data))).1 = Except.error (("denied").data) := by
  have h := c6_scale_down_single_update (("asg").data) (Except.error (("denied").data))
  exact ⟨h.1, (h.2 (("denied").data) rfl).1⟩

/-- C7: for a flagged object the remaining-days figure equals the whole number
of days between now and the projected expiration under truncating division
(floor and truncation agree because the difference is positive there), it is
nonnegative, it stands inside the notification message, and on the spec
example (object last modified 360 days ago, windows 365/7) it is 5. -/
theorem c7_days_remaining (strftime : Str → Int → Str) (env : ScannerEnv)
    (today : Int) (o : StoredObject)
    (h : inAlertWindow env today o = true) :
    days_to_expire env today o
      = Int.tdiv (o.LastModified + env.LIFECYCLE_EXPIRATION_DAYS * 86400 - today) 86400
    ∧ 0 ≤ days_to_expire env today o
    ∧ (toString (days_to_expire env today o)).data
        <:+: message_body strftime env today o
    ∧ days_to_expire envEx todayEx objEx = 5 := by
  have hlt : today < potential_expiration_date env o := by
    simp only [inAlertWindow, Bool.and_eq_true, decide_eq_true_eq] at h
    exact h.2
  have hpos : (0 : Int) ≤ potential_expiration_date env o - today := by omega
  have hfd : days_to_expire env today o
      = Int.tdiv (potential_expiration_date env o - today) 86400 := by
    rw [days_to_expire, secondsPerDay,
      Int.fdiv_eq_ediv _ (by norm_num : (0 : Int) ≤ 86400),
      Int.tdiv_eq_ediv hpos (by norm_num : (0 : Int) ≤ 86400)]
  refine ⟨?_, ?_, days_infix_message strftime env today o, by decide⟩
  · rw [hfd]
    simp only [potential_expiration_date, timedeltaDays, secondsPerDay]
  · rw [days_to_expire, secondsPerDay,
      Int.fdiv_eq_ediv _ (by norm_num : (0 : Int) ≤ 86400)]
    exact Int.ediv_nonneg hpos (by norm_num)

/-- Witness for C7 at the spec example: the object is flagged and reports 5
remaining days. -/
theorem c7_days_remaining_witness :
    inAlertWindow envEx todayEx objEx = true
    ∧ days_to_expire envEx todayEx objEx = 5 := by
  refine ⟨by decide, ?_⟩
  exact (c7_days_remaining fmtNil envEx todayEx objEx (by decide)).2.2.2

/-- C8: on a successful run (publish succeeded, or nothing was flagged so it
was never attempted) the handler returns statusCode 200 with a body reporting
the number of flagged objects, and that number is the size of the flagged
set. -/
theorem c8_success_result (strftime : Str → Int → Str) (env : ScannerEnv)
    (today : Int) (pages : List (Option (List StoredObject)))
    (publishOutcome : Except Str Unit)
    (h : publishOutcome = Except.ok ()
      ∨ collectNotifications strftime env today pages = []) :
    (s3_lambda_handler strftime env today (Except.ok pages) publishOutcome).1
      = Except.ok
          { statusCode := 200
            body := ("Processed. Found ").data
              ++ (toString ((objectsOf pages).filter fun o =>
                    inAlertWindow env today o).length).data
              ++ (" object(s) nearing expiration.").data } := by
  rw [← length_notifications strftime env today pages]
  rcases h with h | h
  · subst h
    cases hE : (collectNotifications strftime env today pages).isEmpty <;>
      simp [s3_lambda_handler, hE, returnBody]
  · simp [s3_lambda_handler, List.isEmpty_iff, h, returnBody]

/-- Witness for C8 at the spec example listing with a succeeding publish. -/
theorem c8_success_result_witness :
    ((Except.ok () : Except Str Unit) = Except.ok ()
      ∨ collectNotifications fmtNil envEx todayEx pagesEx = [])
    ∧ (s3_lambda_handler fmtNil envEx todayEx (Except.ok pagesEx) (Except.ok ())).1
      = Except.ok
          { statusCode := 200
            body := ("Processed. Found ").data
              ++ (toString ((objectsOf pagesEx).filter fun o =>
                    inAlertWindow envEx todayEx o).length).data
              ++ (" object(s) nearing expiration.").data } :=
  ⟨Or.inl rfl,
   c8_success_result fmtNil envEx todayEx pagesEx (Except.ok ()) (Or.inl rfl)⟩

/-- C9: the scanner's outcome is a deterministic function of the listing, the
publish outcome and the single captured instant — equal inputs give an
identical result and trace — and every object of the listing is judged
against that same one instant. -/
theorem c9_deterministic (strftime : Str → Int → Str) (env : ScannerEnv)
    (today₁ today₂ : Int)
    (listing₁ listing₂ : Except Str (List (Option (List StoredObject))))
    (pub₁ pub₂ : Except Str Unit)
    (ht : today₁ = today₂) (hl : listing₁ = listing₂) (hp : pub₁ = pub₂) :
    s3_lambda_handler strftime env today₁ listing₁ pub₁
      = s3_lambda_handler strftime env today₂ listing₂ pub₂
    ∧ ∀ pages, (collectNotifications strftime env today₁ pages).map
          ExpirationNotice.object_key
        = ((objectsOf pages).filter fun o =>
            decide (alert_start_date env o ≤ today₁)
              && decide (today₁ < potential_expiration_date env o)).map
            StoredObject.Key := by
  subst ht hl hp
  refine ⟨rfl, fun pages => ?_⟩
  rw [collectNotifications_eq]
  simpa [inAlertWindow] using map_key_filterMap strftime env today₁ (objectsOf pages)

/-- Witness for C9 at the spec example run. -/
theorem c9_deterministic_witness :
    todayEx = todayEx
    ∧ s3_lambda_handler fmtNil envEx todayEx (Except.ok pagesEx) (Except.ok ())
      = s3_lambda_handler fmtNil envEx todayEx (Except.ok pagesEx) (Except.ok ()) :=
  ⟨rfl, (c9_deterministic fmtNil envEx todayEx todayEx (Except.ok pagesEx)
    (Except.ok pagesEx) (Except.ok ()) (Except.ok ()) rfl rfl rfl).1⟩

/-- C10: a listing page without a Contents key is skipped and flags nothing;
for a listing holding no objects at all, the handler performs no collaborator
call and returns statusCode 200 with a body reporting 0 flagged objects. -/
theorem c10_empty_listing (strftime : Str → Int → Str) (env : ScannerEnv)
    (today : Int) (pages : List (Option (List StoredObject)))
    (publishOutcome : Except Str Unit)
    (h : objectsOf pages = []) :
    scanPage strftime env today none = []
    ∧ (s3_lambda_handler strftime env today (Except.ok pages) publishOutcome).1
        = Except.ok
            { statusCode := 200,
              body := ("Processed. Found 0 object(s) nearing expiration.").data }
    ∧ (s3_lambda_handler strftime env today (Except.ok pages) publishOutcome).2
        = [] := by
  have hc : collectNotifications strftime env today pages = [] := by
    rw [collectNotifications_eq, h]
    rfl
  have hrun : s3_lambda_handler strftime env today (Except.ok pages) publishOutcome
      = (Except.ok { statusCode := 200, body := returnBody 0 }, []) := by
    simp [s3_lambda_handler, hc]
  have hbody : returnBody 0
      = ("Processed. Found 0 object(s) nearing expiration.").data := by decide
  refine ⟨rfl, ?_, ?_⟩ <;> simp [hrun, hbody]

/-- Witness for C10 at a two-page listing with one Contents-less page and one
empty page. -/
theorem c10_empty_listing_witness :
    objectsOf [none, some []] = []
    ∧ (s3_lambda_handler fmtNil envEx todayEx (Except.ok [none, some []])
        (Except.ok ())).1
      = Except.ok
          { statusCode := 200,
            body := ("Processed. Found 0 object(s) nearing expiration.").data } :=
  ⟨by decide,
   (c10_empty_listing fmtNil envEx todayEx [none, some []] (Except.ok ())
     (by decide)).2.1⟩

end CostOpt
